import Mathlib

/-!
Verification development for the generative-design studio repository.

The definitions below are a shallow embedding of the program:
* the data model of src/types/design.ts,
* the Generation Adapter (class AIService in src/services/aiService.ts),
* the Generation Orchestrator (the hook in src/hooks/useDesignGeneration.ts),
* the Component Rasterizer (class ComponentRenderer),
* the Image Color Sampler (extractColorsFromImage in src/hooks/useImageAnalysis.ts).

Network traffic is modelled by explicit outcome values (one per round-trip a
method would perform); JavaScript exceptions crossing a function boundary are
modelled with Except, and JavaScript truthiness of optional strings and numbers
is modelled explicitly. Asynchronous fan-out is modelled by its settled state:
JavaScript runs the callbacks single-threaded, and the claims under study only
concern the state after every issued call has settled, which is independent of
completion order; the embedding processes the requested kinds in request order.
-/

namespace GenDesign

/-! Data model, from src/types/design.ts. -/

inductive AssetType
  | copy | image | palette | layout | component
deriving DecidableEq

def AssetType.toName : AssetType → String
  | .copy => "copy"
  | .image => "image"
  | .palette => "palette"
  | .layout => "layout"
  | .component => "component"

structure CopyAsset where
  headline : String
  subline : String
  tone : String
  cta : Option String
deriving DecidableEq

structure ImageDimensions where
  width : Nat
  height : Nat
deriving DecidableEq

structure ImageAsset where
  url : String
  alt : String
  style : String
  dimensions : ImageDimensions
deriving DecidableEq

structure PaletteColor where
  hex : String
  name : String
  usage : String
deriving DecidableEq

structure ColorPalette where
  colors : List PaletteColor
  contrastRatio : Option ℚ
deriving DecidableEq

structure LayoutAsset where
  gridAreas : List String
  breakpoints : List (String × String)
  cssProperties : List (String × String)
deriving DecidableEq

structure ComponentAsset where
  html : String
  css : String
  javascript : Option String
  framework : String
  description : String
  width : Nat
  height : Nat
deriving DecidableEq

structure StyleProfile where
  id : String
  name : String
  colors : List String
  fonts : List String
  tone : String
  brandGuidelines : String
deriving DecidableEq

structure GenerationConfig where
  temperature : ℚ
  maxTokens : Nat
  model : String
deriving DecidableEq

structure GenMetadata where
  tokensUsed : Nat
  model : String
  temperature : ℚ
  prompt : String
deriving DecidableEq

structure GenerationResult (T : Type) where
  success : Bool
  data : Option T
  error : Option String
  metadata : Option GenMetadata
deriving DecidableEq

/-! JavaScript semantics helpers. -/

/-- JavaScript truthiness test for an optional string: undefined and the empty
string are both falsy. -/
def falsyStr (o : Option String) : Bool :=
  match o with
  | none => true
  | some s => s == ""

/-- The JavaScript expression x || d for an optional string x (undefined and
the empty string fall through to the default). -/
def jsOrStr (o : Option String) (d : String) : String :=
  match o with
  | none => d
  | some s => if s == "" then d else s

/-- The JavaScript expression x || d for an optional number x (undefined and 0
fall through to the default). -/
def jsOrNat (o : Option Nat) (d : Nat) : Nat :=
  match o with
  | none => d
  | some n => if n == 0 then d else n

/-- JavaScript object update obj[k] = v on an object modelled as an ordered
association list: an existing key keeps its position, a new key is appended. -/
def setKey : List (String × String) → String → String → List (String × String)
  | [], k, v => [(k, v)]
  | (k1, v1) :: t, k, v =>
    if k1 == k then (k, v) :: t else (k1, v1) :: setKey t k v

/-- JavaScript object lookup obj[k] on the same representation. -/
def getKey : List (String × String) → String → Option String
  | [], _ => none
  | (k1, v1) :: t, k => if k1 == k then some v1 else getKey t k

/-! The Generation Adapter: class AIService from src/services/aiService.ts. -/

/-- Outcome of one chat-completions round-trip as the Adapter observes it: the
request promise rejected with an error message; a response whose content is
missing or empty; or content together with the reported token usage and the
result of JSON-parsing it into the expected shape (Except.error is a parse
failure with its message). -/
inductive ChatOutcome (α : Type)
  | fault (msg : String)
  | noContent
  | content (tokens : Nat) (parsed : Except String α)

/-- True when the round-trip did not deliver a parseable payload: a transport
fault, missing or empty content, or a JSON parse failure. -/
def ChatOutcome.bad {α : Type} : ChatOutcome α → Bool
  | .content _ (.ok _) => false
  | _ => true

/-- Outcome of one image-generation round-trip: a transport fault, a response
with no image URL, or the image URL. -/
inductive ImageOutcome
  | fault (msg : String)
  | noUrl
  | gotUrl (u : String)
deriving DecidableEq

def ImageOutcome.bad : ImageOutcome → Bool
  | .gotUrl _ => false
  | _ => true

/-- The AIService instance state: the OpenAI client is non-null exactly when a
truthy API key was passed to the constructor. -/
structure AIService where
  configured : Bool
deriving DecidableEq

/-- The constructor new AIService(apiKey): the client is created only for a
truthy (non-empty) key. -/
def AIService.ofKey (apiKey : String) : AIService :=
  ⟨apiKey != ""⟩

/-- The configuration-error result every structured generator returns when the
client is null. -/
def configErrorResult (T : Type) : GenerationResult T :=
  { success := false, data := none,
    error := some "OpenAI API key not configured", metadata := none }

def defaultCopyConfig : GenerationConfig :=
  { temperature := 7/10, maxTokens := 3000, model := "gpt-4.1" }

def defaultPaletteConfig : GenerationConfig :=
  { temperature := 35/100, maxTokens := 400, model := "gpt-4o-mini" }

def defaultLayoutConfig : GenerationConfig :=
  { temperature := 35/100, maxTokens := 400, model := "gpt-4o-mini" }

/-- Instruction text built by generateCopy (whitespace normalised; no claim
depends on the exact text). -/
def copyPrompt (brief : String) (styleProfile : Option StyleProfile) : String :=
  "Create compelling copy for: " ++ brief ++
    (match styleProfile with
     | some p =>
       "\nBrand Context:\n- Colors: " ++ String.intercalate ", " p.colors ++
         "\n- Tone: " ++ p.tone ++ "\n- Guidelines: " ++ p.brandGuidelines
     | none => "") ++
    "\nReturn ONLY valid JSON in this exact format: " ++
    "an object with fields headline, subline, tone, cta"

/-- Shallow embedding of AIService.generateCopy. An Except.error value models
an exception escaping the method; this generator always returns Except.ok. -/
def AIService.generateCopy (svc : AIService) (brief : String)
    (config : GenerationConfig) (styleProfile : Option StyleProfile)
    (net : ChatOutcome CopyAsset) : Except String (GenerationResult CopyAsset) :=
  if !svc.configured then
    .ok (configErrorResult CopyAsset)
  else
    match net with
    | .fault msg =>
      .ok { success := false, data := none, error := some msg, metadata := none }
    | .noContent =>
      .ok { success := false, data := none,
            error := some "No content generated", metadata := none }
    | .content _ (.error msg) =>
      .ok { success := false, data := none, error := some msg, metadata := none }
    | .content tokens (.ok parsed) =>
      .ok { success := true, data := some parsed, error := none,
            metadata := some { tokensUsed := tokens, model := config.model,
                               temperature := config.temperature,
                               prompt := copyPrompt brief styleProfile } }

/-- Instruction text built by generatePalette (whitespace normalised). -/
def palettePrompt (brief : String) (styleProfile : Option StyleProfile) : String :=
  "Create a color palette for: " ++ brief ++
    "\nGenerate 5-7 cohesive colors with proper usage notes." ++
    (match styleProfile with
     | some p =>
       "\nBrand Context:\n- Existing Colors: " ++ String.intercalate ", " p.colors ++
         "\n- Brand Tone: " ++ p.tone ++
         "\n- Brand Guidelines: " ++ p.brandGuidelines ++
         "\nPlease ensure the new palette complements the existing brand colors and aligns with the " ++
         p.tone ++ " tone."
     | none => "") ++
    "\nReturn ONLY valid JSON in this exact format: an object with fields colors and contrastRatio"

/-- Brand-color entries generatePalette builds from a style profile: the i-th
brand color labeled Brand Color i+1 with usage Brand primary. -/
def brandEntries (sp : StyleProfile) : List PaletteColor :=
  sp.colors.enum.map (fun p =>
    { hex := p.2, name := "Brand Color " ++ toString (p.1 + 1),
      usage := "Brand primary" })

/-- The post-parse merge step of generatePalette: only when the profile has at
least one brand color, prepend the brand entries, keep the generated colors
whose hex is not among the brand colors, and truncate to 7 entries. -/
def mergeBrandColors (sp : StyleProfile) (parsed : ColorPalette) : ColorPalette :=
  if sp.colors.length > 0 then
    { parsed with
      colors :=
        (brandEntries sp ++
          parsed.colors.filter (fun c => !(sp.colors.contains c.hex))).take 7 }
  else
    parsed

/-- Shallow embedding of AIService.generatePalette. -/
def AIService.generatePalette (svc : AIService) (brief : String)
    (config : GenerationConfig) (styleProfile : Option StyleProfile)
    (net : ChatOutcome ColorPalette) :
    Except String (GenerationResult ColorPalette) :=
  if !svc.configured then
    .ok (configErrorResult ColorPalette)
  else
    match net with
    | .fault msg =>
      .ok { success := false, data := none, error := some msg, metadata := none }
    | .noContent =>
      .ok { success := false, data := none,
            error := some "No content generated", metadata := none }
    | .content _ (.error msg) =>
      .ok { success := false, data := none, error := some msg, metadata := none }
    | .content tokens (.ok parsed) =>
      let adjusted :=
        match styleProfile with
        | some sp => mergeBrandColors sp parsed
        | none => parsed
      .ok { success := true, data := some adjusted, error := none,
            metadata := some { tokensUsed := tokens, model := config.model,
                               temperature := config.temperature,
                               prompt := palettePrompt brief styleProfile } }

/-- Instruction text built by generateLayout (whitespace normalised). -/
def layoutPrompt (brief : String) (styleProfile : Option StyleProfile) : String :=
  "Create a responsive layout for: " ++ brief ++
    "\nGenerate CSS Grid structure with breakpoints." ++
    (match styleProfile with
     | some p =>
       "\nBrand Context:\n- Brand Colors: " ++ String.intercalate ", " p.colors ++
         "\n- Design Tone: " ++ p.tone ++
         "\n- Brand Guidelines: " ++ p.brandGuidelines ++
         "\nPlease design a layout that reflects the " ++ p.tone ++
         " aesthetic and considers the brand visual identity."
     | none => "") ++
    "\nReturn ONLY valid JSON in this exact format: an object with fields gridAreas, breakpoints, cssProperties"

/-- The switch on styleProfile.tone in generateLayout, applied to a copy of the
parsed cssProperties object. -/
def toneAdjust (tone : String) (props : List (String × String)) :
    List (String × String) :=
  if tone == "minimal" then
    setKey (setKey props "gap" "2rem") "padding" "2rem"
  else if tone == "luxurious" then
    setKey (setKey props "gap" "3rem") "padding" "3rem"
  else if tone == "playful" then
    setKey (setKey (setKey props "gap" "1.5rem") "padding" "1.5rem")
      "borderRadius" "12px"
  else if tone == "professional" then
    setKey (setKey props "gap" "1rem") "padding" "1.5rem"
  else
    props

/-- Shallow embedding of AIService.generateLayout. -/
def AIService.generateLayout (svc : AIService) (brief : String)
    (config : GenerationConfig) (styleProfile : Option StyleProfile)
    (net : ChatOutcome LayoutAsset) :
    Except String (GenerationResult LayoutAsset) :=
  if !svc.configured then
    .ok (configErrorResult LayoutAsset)
  else
    match net with
    | .fault msg =>
      .ok { success := false, data := none, error := some msg, metadata := none }
    | .noContent =>
      .ok { success := false, data := none,
            error := some "No content generated", metadata := none }
    | .content _ (.error msg) =>
      .ok { success := false, data := none, error := some msg, metadata := none }
    | .content tokens (.ok parsed) =>
      let adjusted :=
        match styleProfile with
        | some sp => { parsed with cssProperties := toneAdjust sp.tone parsed.cssProperties }
        | none => parsed
      .ok { success := true, data := some adjusted, error := none,
            metadata := some { tokensUsed := tokens, model := config.model,
                               temperature := config.temperature,
                               prompt := layoutPrompt brief styleProfile } }

/-- Instruction text built by generateImage. -/
def imagePrompt (brief : String) (styleProfile : Option StyleProfile) : String :=
  brief ++
    (match styleProfile with
     | some p =>
       " Style: " ++ p.tone ++ ". Color palette: " ++
         String.intercalate ", " p.colors ++ "."
     | none => "") ++
    " High quality, professional, clean background."

/-- Shallow embedding of AIService.generateImage. -/
def AIService.generateImage (svc : AIService) (brief : String)
    (styleProfile : Option StyleProfile) (net : ImageOutcome) :
    Except String (GenerationResult ImageAsset) :=
  if !svc.configured then
    .ok (configErrorResult ImageAsset)
  else
    match net with
    | .fault msg =>
      .ok { success := false, data := none, error := some msg, metadata := none }
    | .noUrl =>
      .ok { success := false, data := none,
            error := some "No image URL generated", metadata := none }
    | .gotUrl u =>
      .ok { success := true,
            data := some { url := u, alt := brief,
                           style := jsOrStr (styleProfile.map (fun p => p.tone)) "professional",
                           dimensions := { width := 1024, height := 1024 } },
            error := none,
            metadata := some { tokensUsed := 0, model := "dall-e-3",
                               temperature := 0,
                               prompt := imagePrompt brief styleProfile } }

/-- Shape of a component response after JSON.parse: every field may be absent
since the cast is unchecked. -/
structure ParsedComponent where
  html : Option String
  css : Option String
  javascript : Option String
  framework : Option String
  description : Option String
  width : Option Nat
  height : Option Nat
deriving DecidableEq

/-- Shallow embedding of AIService.generateComponent. Unlike the structured
generators this method raises (returns Except.error) on every failure: missing
credential, transport fault, missing response, parse failure, or missing
required field; the credential check sits before the try block so its message
is not wrapped. -/
def AIService.generateComponent (svc : AIService) (prompt : String)
    (net : ChatOutcome ParsedComponent) : Except String ComponentAsset :=
  if !svc.configured then
    .error "OpenAI API key not configured"
  else
    match net with
    | .fault msg => .error ("Failed to generate component: " ++ msg)
    | .noContent => .error "Failed to generate component: No response from OpenAI"
    | .content _ (.error msg) => .error ("Failed to generate component: " ++ msg)
    | .content _ (.ok pc) =>
      if falsyStr pc.html || falsyStr pc.css || falsyStr pc.description then
        .error "Failed to generate component: Invalid component data structure"
      else
        .ok { html := pc.html.getD "", css := pc.css.getD "",
              javascript := pc.javascript,
              framework := jsOrStr pc.framework "vanilla",
              description := pc.description.getD "",
              width := jsOrNat pc.width 300,
              height := jsOrNat pc.height 200 }

/-! The Generation Orchestrator: the useDesignGeneration hook. -/

/-- Metadata stored with an asset by the hook (timestamps omitted: no claim
mentions them; the optional cost field is never set by the hook). -/
structure AssetMetadata where
  prompt : String
  model : String
  temperature : ℚ
deriving DecidableEq

/-- Content payload stored by the hook addAsset, whose union covers the four
structured kinds. -/
inductive AssetContent
  | copy (c : CopyAsset)
  | image (i : ImageAsset)
  | palette (p : ColorPalette)
  | layout (l : LayoutAsset)
deriving DecidableEq

structure Asset where
  id : String
  type : AssetType
  content : AssetContent
  metadata : AssetMetadata
  designId : String
deriving DecidableEq

structure DesignBrief where
  id : String
  brief : String
  assets : List AssetType
  styleProfileId : Option String
deriving DecidableEq

structure DesignGenerationState where
  isLoading : Bool
  error : Option String
  currentDesign : Option DesignBrief
  assets : List Asset
  apiKey : String
deriving DecidableEq

/-- Network environment for one generation round: the outcome each Adapter
call would observe, per asset kind. -/
structure NetEnv where
  copyNet : ChatOutcome CopyAsset
  paletteNet : ChatOutcome ColorPalette
  layoutNet : ChatOutcome LayoutAsset
  imageNet : ImageOutcome

/-- The asset record the hook addAsset appends: a fresh identifier, the given
content, and metadata recording the prompt but a hard-coded empty model string
and zero temperature. -/
def mkAsset (id : String) (type : AssetType) (content : AssetContent)
    (prompt : String) (designId : String) : Asset :=
  { id := id, type := type, content := content, designId := designId,
    metadata := { prompt := prompt, model := "", temperature := 0 } }

/-- Shallow embedding of the hook-level generateAsset: dispatches to the
Adapter method for the kind, yields the generated content when the result has
success set and data present, and otherwise throws the result error (or a
per-kind default message). The component kind falls to the default branch and
always throws Unsupported asset type. -/
def hookGenerateAsset (svc : AIService) (env : NetEnv) (type : AssetType)
    (brief : String) (styleProfile : Option StyleProfile) :
    Except String AssetContent :=
  match type with
  | .copy =>
    match svc.generateCopy brief defaultCopyConfig styleProfile env.copyNet with
    | .error e => .error e
    | .ok r =>
      match r.data with
      | some d => if r.success then .ok (.copy d)
                  else .error (jsOrStr r.error "Failed to generate copy")
      | none => .error (jsOrStr r.error "Failed to generate copy")
  | .palette =>
    match svc.generatePalette brief defaultPaletteConfig styleProfile env.paletteNet with
    | .error e => .error e
    | .ok r =>
      match r.data with
      | some d => if r.success then .ok (.palette d)
                  else .error (jsOrStr r.error "Failed to generate palette")
      | none => .error (jsOrStr r.error "Failed to generate palette")
  | .layout =>
    match svc.generateLayout brief defaultLayoutConfig styleProfile env.layoutNet with
    | .error e => .error e
    | .ok r =>
      match r.data with
      | some d => if r.success then .ok (.layout d)
                  else .error (jsOrStr r.error "Failed to generate layout")
      | none => .error (jsOrStr r.error "Failed to generate layout")
  | .image =>
    match svc.generateImage brief styleProfile env.imageNet with
    | .error e => .error e
    | .ok r =>
      match r.data with
      | some d => if r.success then .ok (.image d)
                  else .error (jsOrStr r.error "Failed to generate image")
      | none => .error (jsOrStr r.error "Failed to generate image")
  | .component => .error ("Unsupported asset type: " ++ AssetType.toName .component)

/-- Shallow embedding of createDesign, given the settled state of the fan-out:
requires a non-empty API key; resets the asset list and installs the new
design; issues one hook generateAsset per requested kind; every call that
succeeds appends its asset (addAsset runs inside each call, before the join);
the session error becomes the message of the first rejected call, if any.
The ids list supplies the client-side UUIDs consumed in order; designId is the
UUID chosen for the design. -/
def createDesign (st : DesignGenerationState) (env : NetEnv) (ids : List String)
    (designId : String) (brief : String) (assetTypes : List AssetType)
    (styleProfile : Option StyleProfile) : DesignGenerationState :=
  if st.apiKey == "" then
    { st with error := some "Please provide an OpenAI API key" }
  else
    let newDesign : DesignBrief :=
      { id := designId, brief := brief, assets := assetTypes,
        styleProfileId := styleProfile.map (fun p => p.id) }
    let svc := AIService.ofKey st.apiKey
    let outcomes := assetTypes.map
      (fun t => (t, hookGenerateAsset svc env t brief styleProfile))
    let successes := outcomes.filterMap
      (fun p => match p.2 with | .ok c => some (p.1, c) | .error _ => none)
    let newAssets := (successes.zip ids).map
      (fun q => mkAsset q.2 q.1.1 q.1.2 brief designId)
    let firstError := (outcomes.filterMap
      (fun p => match p.2 with | .error e => some e | .ok _ => none)).head?
    { isLoading := false, error := firstError, currentDesign := some newDesign,
      assets := newAssets, apiKey := st.apiKey }

/-- Shallow embedding of regenerateAsset: a silent no-op without an API key
and a current design; otherwise looks the asset up by identifier, throws Asset
not found when absent, re-invokes the hook generateAsset for the asset kind
with the new prompt (or, when the new prompt is absent or empty, the original
prompt) and no style profile; the success path appends the replacement asset
and then filters the old identifier out, the failure path leaves the asset
list untouched and records the error. freshId is the UUID for the replacement
asset. -/
def regenerateAsset (st : DesignGenerationState) (env : NetEnv)
    (freshId : String) (assetId : String) (newPrompt : Option String) :
    DesignGenerationState :=
  if st.apiKey == "" then st
  else
    match st.currentDesign with
    | none => st
    | some design =>
      match st.assets.find? (fun a => a.id == assetId) with
      | none => { st with isLoading := false, error := some "Asset not found" }
      | some asset =>
        let prompt := jsOrStr newPrompt asset.metadata.prompt
        match hookGenerateAsset (AIService.ofKey st.apiKey) env asset.type prompt none with
        | .error e => { st with isLoading := false, error := some e }
        | .ok c =>
          { st with
            isLoading := false
            error := none
            assets := (st.assets ++ [mkAsset freshId asset.type c prompt design.id]).filter
              (fun a => !(a.id == assetId)) }

/-! The Component Rasterizer: class ComponentRenderer. -/

/-- The wrapper DOM node renderComponent builds for one render, identified by
the style and markup injected into it and its declared size. -/
structure WrapperNode where
  width : Nat
  height : Nat
  css : String
  html : String
deriving DecidableEq

def mkWrapper (c : ComponentAsset) : WrapperNode :=
  { width := c.width, height := c.height, css := c.css, html := c.html }

structure RenderedComponent where
  imageUrl : String
  width : Nat
  height : Nat
  component : ComponentAsset
deriving DecidableEq

/-- Renderer state: the shared hidden render container, holding the wrapper
nodes currently attached to it, or none before initialization or after
destroy. -/
structure RendererState where
  renderContainer : Option (List WrapperNode)
deriving DecidableEq

/-- Shallow embedding of ComponentRenderer.renderComponent. scriptError is the
error thrown by the component script, if any: the code catches and swallows
it, so it does not influence the result. raster is the outcome of the
html2canvas step: the PNG data URL, or a raised error. The returned pair is
the call outcome and the renderer state after the call. -/
def ComponentRenderer.renderComponent (st : RendererState)
    (component : ComponentAsset) (scriptError : Option String)
    (raster : Except String String) :
    Except String RenderedComponent × RendererState :=
  match st.renderContainer with
  | none => (.error "Render container not initialized", st)
  | some nodes =>
    let wrapper := mkWrapper component
    let nodes1 := nodes ++ [wrapper]
    match raster with
    | .error msg =>
      (.error ("Failed to render component: " ++ msg), ⟨some nodes1⟩)
    | .ok dataUrl =>
      (.ok { imageUrl := dataUrl, width := component.width,
             height := component.height, component := component },
       ⟨some nodes⟩)

/-! The Image Color Sampler: extractColorsFromImage. -/

/-- Lowercase hexadecimal digit character, as JavaScript toString(16) writes
it. -/
def hexDigitChar (n : Nat) : Char :=
  if n < 10 then Char.ofNat (48 + n) else Char.ofNat (87 + n)

/-- Hexadecimal digit list of n, most significant first, as JavaScript
Number.prototype.toString(16) writes a natural number; the fuel bounds the
digit count and 8 suffices for every value occurring here. -/
def natToHexAux : Nat → Nat → List Char
  | 0, _ => []
  | fuel + 1, n =>
    if n < 16 then [hexDigitChar n]
    else natToHexAux fuel (n / 16) ++ [hexDigitChar (n % 16)]

def natToHex (n : Nat) : String :=
  String.mk (natToHexAux 8 n)

/-- The hex-color expression of the sampler: toString(16) of
(1 shl 24) + (r shl 16) + (g shl 8) + b with the leading 1 sliced off,
prefixed with the hash sign. -/
def toHexColor (r g b : Nat) : String :=
  "#" ++ (natToHex ((1 <<< 24) + (r <<< 16) + (g <<< 8) + b)).drop 1

/-- The sampling loop over the RGBA byte array: index i runs 0, 40, 80, ...
while below the data length (every 10th pixel at 4 bytes per pixel), reading
the r, g, b bytes at i, i+1, i+2. -/
def samplePixels (data : List Nat) : List (Nat × Nat × Nat) :=
  (List.range ((data.length + 39) / 40)).map (fun k =>
    (data.getD (40 * k) 0, data.getD (40 * k + 1) 0, data.getD (40 * k + 2) 0))

/-- JavaScript Set.prototype.add on a set represented by its insertion-ordered
element list. -/
def insertDistinct (acc : List String) (h : String) : List String :=
  if h ∈ acc then acc else acc ++ [h]

/-- Shallow embedding of extractColorsFromImage on the decoded RGBA byte
array: hex-encode every sampled pixel, accumulate into a set, and return the
first 10 distinct values in insertion order. -/
def extractColorsFromImage (data : List Nat) : List String :=
  (((samplePixels data).map (fun p => toHexColor p.1 p.2.1 p.2.2)).foldl
    insertDistinct []).take 10

/-- Specification-side description of the set accumulation: keep the first
occurrence of each value, in scan order. -/
def dedupFirst : List String → List String
  | [] => []
  | h :: t => h :: dedupFirst (t.filter (fun x => x != h))
termination_by l => l.length
decreasing_by
  simp only [List.length_cons]
  exact Nat.lt_succ_of_le (List.length_filter_le _ _)

/-! Helper lemmas. -/

theorem getKey_setKey_self (m : List (String × String)) (k v : String) :
    getKey (setKey m k v) k = some v := by
  induction m with
  | nil => simp [setKey, getKey]
  | cons p t ih =>
    obtain ⟨k1, v1⟩ := p
    by_cases h : k1 = k
    · simp [setKey, getKey, h]
    · simp [setKey, getKey, h, ih]

theorem getKey_setKey_of_ne (m : List (String × String)) (k v k2 : String)
    (h : k2 ≠ k) : getKey (setKey m k v) k2 = getKey m k2 := by
  have hk : ¬k = k2 := fun hh => h hh.symm
  induction m with
  | nil => simp [setKey, getKey, hk]
  | cons p t ih =>
    obtain ⟨k1, v1⟩ := p
    by_cases h1 : k1 = k
    · subst h1
      simp [setKey, getKey, hk]
    · by_cases h2 : k1 = k2
      · subst h2
        simp [setKey, getKey, h1]
      · simp [setKey, getKey, h1, h2, ih]

theorem mem_of_mem_dedupFirst (l : List String) (a : String)
    (h : a ∈ dedupFirst l) : a ∈ l := by
  induction l using dedupFirst.induct with
  | case1 => simp [dedupFirst] at h
  | case2 x t ih =>
    rw [dedupFirst] at h
    rcases List.mem_cons.mp h with h1 | h1
    · simp [h1]
    · exact List.mem_cons_of_mem _ (List.mem_of_mem_filter (ih h1))

theorem dedupFirst_nodup (l : List String) : (dedupFirst l).Nodup := by
  induction l using dedupFirst.induct with
  | case1 => simp [dedupFirst]
  | case2 x t ih =>
    rw [dedupFirst]
    refine List.nodup_cons.mpr ⟨fun hmem => ?_, ih⟩
    have := List.of_mem_filter (mem_of_mem_dedupFirst _ _ hmem)
    simp at this

theorem foldl_insertDistinct_eq (l : List String) :
    ∀ acc : List String,
      l.foldl insertDistinct acc =
        acc ++ dedupFirst (l.filter (fun x => !(acc.contains x))) := by
  induction l with
  | nil => intro acc; simp [dedupFirst]
  | cons h t ih =>
    intro acc
    simp only [List.foldl_cons]
    by_cases hc : h ∈ acc
    · have h1 : insertDistinct acc h = acc := by simp [insertDistinct, hc]
      have h2 : (List.filter (fun x => !(acc.contains x)) (h :: t)) =
          List.filter (fun x => !(acc.contains x)) t := by
        simp [List.filter_cons, hc]
      rw [h1, h2, ih]
    · have h1 : insertDistinct acc h = acc ++ [h] := by simp [insertDistinct, hc]
      have h2 : (List.filter (fun x => !(acc.contains x)) (h :: t)) =
          h :: List.filter (fun x => !(acc.contains x)) t := by
        simp [List.filter_cons, hc]
      rw [h1, h2, ih, dedupFirst]
      have h3 : (List.filter (fun x => x != h)
            (List.filter (fun x => !(acc.contains x)) t)) =
          List.filter (fun x => !((acc ++ [h]).contains x)) t := by
        rw [List.filter_filter]
        refine List.filter_congr (fun x _ => ?_)
        by_cases hx : x = h
        · simp [hx]
        · by_cases ha : x ∈ acc <;> simp [hx, ha]
      rw [h3]
      simp

theorem mem_zip_left {α β : Type} {a : α} {l1 : List α} (l2 : List β)
    (h : a ∈ l1) (hlen : l1.length ≤ l2.length) :
    ∃ b, (a, b) ∈ l1.zip l2 := by
  obtain ⟨i, hi, rfl⟩ := List.mem_iff_getElem.mp h
  have hi2 : i < l2.length := lt_of_lt_of_le hi hlen
  have hiz : i < (l1.zip l2).length := by
    rw [List.length_zip]
    exact lt_min hi hi2
  refine ⟨l2[i], ?_⟩
  have hget : (l1.zip l2)[i] = (l1[i], l2[i]) := List.getElem_zip
  rw [← hget]
  exact List.getElem_mem hiz

/-! Claim theorems. -/

/-- Claim C9 (confirmed): extractColorsFromImage hex-encodes every 10th pixel
of the decoded pixel data in scan order, collapses duplicate hex values
keeping first occurrences, and returns at most the first 10 distinct colors;
for the 1 by 1 pure-red image (RGBA bytes 255, 0, 0, 255) it returns exactly
the singleton #ff0000. -/
theorem extractColors_first_ten_distinct :
    (∀ data : List Nat,
        extractColorsFromImage data =
          (dedupFirst ((samplePixels data).map
            (fun p => toHexColor p.1 p.2.1 p.2.2))).take 10) ∧
    (∀ data : List Nat, (extractColorsFromImage data).Nodup) ∧
    (∀ data : List Nat, (extractColorsFromImage data).length ≤ 10) ∧
    extractColorsFromImage [255, 0, 0, 255] = ["#ff0000"] := by
  have key : ∀ data : List Nat,
      extractColorsFromImage data =
        (dedupFirst ((samplePixels data).map
          (fun p => toHexColor p.1 p.2.1 p.2.2))).take 10 := by
    intro data
    unfold extractColorsFromImage
    rw [foldl_insertDistinct_eq]
    simp
  refine ⟨key, fun data => ?_, fun data => ?_, by decide⟩
  · rw [key]
    exact (List.take_sublist _ _).nodup (dedupFirst_nodup _)
  · rw [key]
    simp [List.length_take]

/-- Concrete component used by the rasterizer counterexample. -/
def cexComponent : ComponentAsset :=
  { html := "<div>hi</div>", css := ".a-css-rule", javascript := none,
    framework := "vanilla", description := "card", width := 300, height := 200 }

/-- Claim C2 (refuted): on an initialized renderer whose container is empty, a
renderComponent call whose rasterization step fails leaves the wrapper node
attached to the shared container — the wrapper is not removed on this failure
path, contrary to the claim that it is removed on every path. -/
theorem renderComponent_failure_leak_cex :
    (ComponentRenderer.renderComponent ⟨some []⟩ cexComponent none
        (.error "canvas failure")).2.renderContainer =
      some [mkWrapper cexComponent] ∧
    ¬(ComponentRenderer.renderComponent ⟨some []⟩ cexComponent none
        (.error "canvas failure")).2.renderContainer = some [] := by
  constructor
  · rfl
  · decide

/-- Claim C2 (amended): on an initialized renderer, renderComponent removes
the scoped wrapper node before the call completes on the success path, so the
container is exactly as before; on a rasterization failure the call raises a
fault and the wrapper node is left attached to the shared container (leaked). -/
theorem renderComponent_wrapper_cleanup (st : RendererState)
    (nodes : List WrapperNode) (component : ComponentAsset)
    (scriptError : Option String) (raster : Except String String)
    (hinit : st.renderContainer = some nodes) :
    (∀ u, raster = .ok u →
      (ComponentRenderer.renderComponent st component scriptError
          raster).2.renderContainer = some nodes) ∧
    (∀ msg, raster = .error msg →
      (ComponentRenderer.renderComponent st component scriptError
            raster).2.renderContainer = some (nodes ++ [mkWrapper component]) ∧
        (ComponentRenderer.renderComponent st component scriptError
            raster).1 = .error ("Failed to render component: " ++ msg)) := by
  obtain ⟨c⟩ := st
  cases hinit
  constructor
  · intro u hu
    subst hu
    rfl
  · intro msg hm
    subst hm
    exact ⟨rfl, rfl⟩

/-- Witness for C2 at a concrete renderer state, component and outcome. -/
theorem renderComponent_wrapper_cleanup_witness :
    (ComponentRenderer.renderComponent ⟨some []⟩ cexComponent none
        (.ok "data:image/png;base64,AAAA")).2.renderContainer = some [] :=
  (renderComponent_wrapper_cleanup ⟨some []⟩ [] cexComponent none
      (.ok "data:image/png;base64,AAAA") rfl).1 _ rfl

/-- Claim C3 (confirmed): each of the four structured-content generators
returns Except.ok for every network outcome — it never throws across its
boundary — and whenever the round-trip fails to deliver a parseable payload
(transport fault, missing or empty content, or JSON parse failure) the result
carries success false and an error message; generateComponent instead raises
a fault with a message on those outcomes. -/
theorem adapter_soft_fail_boundary (svc : AIService) (brief prompt : String)
    (config : GenerationConfig) (styleProfile : Option StyleProfile)
    (netC : ChatOutcome CopyAsset) (netP : ChatOutcome ColorPalette)
    (netL : ChatOutcome LayoutAsset) (netI : ImageOutcome)
    (netK : ChatOutcome ParsedComponent) :
    (∃ r, svc.generateCopy brief config styleProfile netC = .ok r ∧
      (netC.bad = true → r.success = false ∧ r.error.isSome = true)) ∧
    (∃ r, svc.generatePalette brief config styleProfile netP = .ok r ∧
      (netP.bad = true → r.success = false ∧ r.error.isSome = true)) ∧
    (∃ r, svc.generateLayout brief config styleProfile netL = .ok r ∧
      (netL.bad = true → r.success = false ∧ r.error.isSome = true)) ∧
    (∃ r, svc.generateImage brief styleProfile netI = .ok r ∧
      (netI.bad = true → r.success = false ∧ r.error.isSome = true)) ∧
    (netK.bad = true → ∃ msg, svc.generateComponent prompt netK = .error msg) := by
  obtain ⟨b⟩ := svc
  cases b
  · refine ⟨⟨_, rfl, fun _ => ⟨rfl, rfl⟩⟩, ⟨_, rfl, fun _ => ⟨rfl, rfl⟩⟩,
      ⟨_, rfl, fun _ => ⟨rfl, rfl⟩⟩, ⟨_, rfl, fun _ => ⟨rfl, rfl⟩⟩,
      fun _ => ⟨_, rfl⟩⟩
  · refine ⟨?_, ?_, ?_, ?_, ?_⟩
    · rcases netC with msg | _ | ⟨tok, msg | parsed⟩ <;>
        exact ⟨_, rfl, by simp [ChatOutcome.bad]⟩
    · rcases netP with msg | _ | ⟨tok, msg | parsed⟩ <;>
        exact ⟨_, rfl, by simp [ChatOutcome.bad]⟩
    · rcases netL with msg | _ | ⟨tok, msg | parsed⟩ <;>
        exact ⟨_, rfl, by simp [ChatOutcome.bad]⟩
    · rcases netI with msg | _ | u <;>
        exact ⟨_, rfl, by simp [ImageOutcome.bad]⟩
    · rcases netK with msg | _ | ⟨tok, msg | parsed⟩ <;> intro hbad
      · exact ⟨_, rfl⟩
      · exact ⟨_, rfl⟩
      · exact ⟨_, rfl⟩
      · simp [ChatOutcome.bad] at hbad

/-- Witness for C3 at a configured service and concrete faulty outcomes. -/
theorem adapter_soft_fail_boundary_witness :
    ∃ r, AIService.generateCopy ⟨true⟩ "a landing page" defaultCopyConfig none
        (.fault "network down") = .ok r ∧
      r.success = false ∧ r.error.isSome = true := by
  obtain ⟨⟨r, hr, himp⟩, _⟩ :=
    adapter_soft_fail_boundary ⟨true⟩ "a landing page" "p" defaultCopyConfig
      none (.fault "network down") (.noContent) (.noContent) (.noUrl)
      (.noContent)
  exact ⟨r, hr, himp rfl⟩

/-- Claim C6 (confirmed): with the client unconfigured (no truthy API key),
every generation method fails immediately with the same OpenAI API key not
configured error — the four structured generators return it as a soft
failure, generateComponent raises it — and the result does not depend on the
network outcome at all (no network round-trip is observed), the embedding
being otherwise pure (side-effect free). -/
theorem adapter_unconfigured_config_error (svc : AIService)
    (brief prompt : String) (config : GenerationConfig)
    (styleProfile : Option StyleProfile)
    (netC netC2 : ChatOutcome CopyAsset) (netP netP2 : ChatOutcome ColorPalette)
    (netL netL2 : ChatOutcome LayoutAsset) (netI netI2 : ImageOutcome)
    (netK netK2 : ChatOutcome ParsedComponent)
    (h : svc.configured = false) :
    svc.generateCopy brief config styleProfile netC =
      .ok (configErrorResult CopyAsset) ∧
    svc.generatePalette brief config styleProfile netP =
      .ok (configErrorResult ColorPalette) ∧
    svc.generateLayout brief config styleProfile netL =
      .ok (configErrorResult LayoutAsset) ∧
    svc.generateImage brief styleProfile netI =
      .ok (configErrorResult ImageAsset) ∧
    svc.generateComponent prompt netK = .error "OpenAI API key not configured" ∧
    svc.generateCopy brief config styleProfile netC =
      svc.generateCopy brief config styleProfile netC2 ∧
    svc.generatePalette brief config styleProfile netP =
      svc.generatePalette brief config styleProfile netP2 ∧
    svc.generateLayout brief config styleProfile netL =
      svc.generateLayout brief config styleProfile netL2 ∧
    svc.generateImage brief styleProfile netI =
      svc.generateImage brief styleProfile netI2 ∧
    svc.generateComponent prompt netK = svc.generateComponent prompt netK2 := by
  obtain ⟨b⟩ := svc
  cases h
  simp [AIService.generateCopy, AIService.generatePalette,
    AIService.generateLayout, AIService.generateImage,
    AIService.generateComponent]

/-- Witness for C6 at the unconfigured service built from an empty key. -/
theorem adapter_unconfigured_config_error_witness :
    (AIService.ofKey "").generateComponent "make a card"
        (.content 9 (.ok ⟨some "<div></div>", some ".a-css", none, none,
          some "d", none, none⟩)) =
      .error "OpenAI API key not configured" :=
  (adapter_unconfigured_config_error (AIService.ofKey "") "b" "make a card"
      defaultCopyConfig none (.noContent) (.noContent) (.noContent)
      (.noContent) (.noContent) (.noContent) (.noUrl) (.noUrl)
      (.content 9 (.ok ⟨some "<div></div>", some ".a-css", none, none,
        some "d", none, none⟩)) (.noContent) rfl).2.2.2.2.1

/-- Claim C8 (confirmed): when a component response parses as an object, a
missing (or empty, JavaScript falsiness) html, css or description field makes
generateComponent raise the Invalid component data structure fault — never a
silent default — while missing width, height and framework fields are
defaulted to 300, 200 and vanilla and the call succeeds. -/
theorem generateComponent_required_optional_fields (svc : AIService)
    (prompt : String) (tokens : Nat) (pc : ParsedComponent)
    (hconf : svc.configured = true) :
    ((falsyStr pc.html || falsyStr pc.css || falsyStr pc.description) = true →
      svc.generateComponent prompt (.content tokens (.ok pc)) =
        .error "Failed to generate component: Invalid component data structure") ∧
    ((falsyStr pc.html || falsyStr pc.css || falsyStr pc.description) = false →
      ∃ c, svc.generateComponent prompt (.content tokens (.ok pc)) = .ok c ∧
        (pc.width = none → c.width = 300) ∧
        (pc.height = none → c.height = 200) ∧
        (pc.framework = none → c.framework = "vanilla") ∧
        c.html = pc.html.getD "" ∧ c.css = pc.css.getD "" ∧
        c.description = pc.description.getD "" ∧
        c.width = jsOrNat pc.width 300 ∧ c.height = jsOrNat pc.height 200 ∧
        c.framework = jsOrStr pc.framework "vanilla") := by
  obtain ⟨b⟩ := svc
  cases hconf
  constructor
  · intro hbad
    simp [AIService.generateComponent, hbad]
  · intro hgood
    refine ⟨⟨pc.html.getD "", pc.css.getD "", pc.javascript,
        jsOrStr pc.framework "vanilla", pc.description.getD "",
        jsOrNat pc.width 300, jsOrNat pc.height 200⟩,
      by simp [AIService.generateComponent, hgood], ?_, ?_, ?_,
      rfl, rfl, rfl, rfl, rfl, rfl⟩
    · intro hw; simp [jsOrNat, hw]
    · intro hh; simp [jsOrNat, hh]
    · intro hf; simp [jsOrStr, hf]

/-- Witness for C8: a parsed response with the required fields present and all
three optional fields absent yields the documented defaults. -/
theorem generateComponent_required_optional_fields_witness :
    ∃ c, AIService.generateComponent ⟨true⟩ "make a card"
        (.content 5 (.ok ⟨some "<div>x</div>", some ".a-css", none, none,
          some "a card", none, none⟩)) = .ok c ∧
      c.width = 300 ∧ c.height = 200 ∧ c.framework = "vanilla" := by
  obtain ⟨_, hok⟩ :=
    generateComponent_required_optional_fields ⟨true⟩ "make a card" 5
      ⟨some "<div>x</div>", some ".a-css", none, none, some "a card", none, none⟩
      rfl
  obtain ⟨c, hc, hw, hh, hf, _⟩ := hok (by decide)
  exact ⟨c, hc, hw rfl, hh rfl, hf rfl⟩

/-- Claim C5 (confirmed): a successful generateLayout call made with a
StyleProfile has its cssProperties gap and padding overridden to the fixed
per-tone values for the tones minimal, luxurious, playful (which also sets
borderRadius 12px) and professional, regardless of the parsed values for
those keys; any other tone leaves the generated cssProperties unchanged. -/
theorem generateLayout_tone_override (svc : AIService) (brief : String)
    (config : GenerationConfig) (sp : StyleProfile) (tokens : Nat)
    (parsed : LayoutAsset) (hconf : svc.configured = true) :
    ∃ r, svc.generateLayout brief config (some sp)
        (.content tokens (.ok parsed)) = .ok r ∧ r.success = true ∧
      ∃ l, r.data = some l ∧
        (sp.tone = "minimal" →
          getKey l.cssProperties "gap" = some "2rem" ∧
          getKey l.cssProperties "padding" = some "2rem") ∧
        (sp.tone = "luxurious" →
          getKey l.cssProperties "gap" = some "3rem" ∧
          getKey l.cssProperties "padding" = some "3rem") ∧
        (sp.tone = "playful" →
          getKey l.cssProperties "gap" = some "1.5rem" ∧
          getKey l.cssProperties "padding" = some "1.5rem" ∧
          getKey l.cssProperties "borderRadius" = some "12px") ∧
        (sp.tone = "professional" →
          getKey l.cssProperties "gap" = some "1rem" ∧
          getKey l.cssProperties "padding" = some "1.5rem") ∧
        (sp.tone ≠ "minimal" → sp.tone ≠ "luxurious" → sp.tone ≠ "playful" →
          sp.tone ≠ "professional" → l.cssProperties = parsed.cssProperties) := by
  obtain ⟨b⟩ := svc
  cases hconf
  refine ⟨_, rfl, rfl, _, rfl, ?_, ?_, ?_, ?_, ?_⟩
  · intro ht
    simp only [toneAdjust, ht, beq_iff_eq, String.reduceEq, reduceIte]
    constructor
    · rw [getKey_setKey_of_ne _ _ _ _ (by decide), getKey_setKey_self]
    · rw [getKey_setKey_self]
  · intro ht
    simp only [toneAdjust, ht, beq_iff_eq, String.reduceEq, reduceIte]
    constructor
    · rw [getKey_setKey_of_ne _ _ _ _ (by decide), getKey_setKey_self]
    · rw [getKey_setKey_self]
  · intro ht
    simp only [toneAdjust, ht, beq_iff_eq, String.reduceEq, reduceIte]
    refine ⟨?_, ?_, ?_⟩
    · rw [getKey_setKey_of_ne _ _ _ _ (by decide),
        getKey_setKey_of_ne _ _ _ _ (by decide), getKey_setKey_self]
    · rw [getKey_setKey_of_ne _ _ _ _ (by decide), getKey_setKey_self]
    · rw [getKey_setKey_self]
  · intro ht
    simp only [toneAdjust, ht, beq_iff_eq, String.reduceEq, reduceIte]
    constructor
    · rw [getKey_setKey_of_ne _ _ _ _ (by decide), getKey_setKey_self]
    · rw [getKey_setKey_self]
  · intro h1 h2 h3 h4
    simp [toneAdjust, h1, h2, h3, h4]

/-- Witness for C5: the playful tone forces gap 1.5rem, padding 1.5rem and
borderRadius 12px over a parsed layout that set gap to 9rem. -/
theorem generateLayout_tone_override_witness :
    ∃ r, AIService.generateLayout ⟨true⟩ "b" defaultLayoutConfig
        (some ⟨"s3", "P", [], [], "playful", "g"⟩)
        (.content 0 (.ok ⟨["main"], [("mobile", "1fr")],
          [("gap", "9rem"), ("color", "red")]⟩)) = .ok r ∧
      ∃ l, r.data = some l ∧
        getKey l.cssProperties "gap" = some "1.5rem" ∧
        getKey l.cssProperties "padding" = some "1.5rem" ∧
        getKey l.cssProperties "borderRadius" = some "12px" := by
  obtain ⟨r, hr, hs, l, hl, hrest⟩ :=
    generateLayout_tone_override ⟨true⟩ "b" defaultLayoutConfig
      ⟨"s3", "P", [], [], "playful", "g"⟩ 0
      ⟨["main"], [("mobile", "1fr")], [("gap", "9rem"), ("color", "red")]⟩ rfl
  obtain ⟨hg, hp, hb⟩ := hrest.2.2.1 rfl
  exact ⟨r, hr, l, hl, hg, hp, hb⟩


/-- Style profile with an empty brand-color list, used by the palette
counterexample. -/
def spNoColors : StyleProfile :=
  { id := "s2", name := "NoColors", colors := [], fonts := [],
    tone := "minimal", brandGuidelines := "guide" }

/-- An AI palette response carrying 8 colors, used by the palette
counterexample. -/
def pal8 : ColorPalette :=
  { colors := (List.range 8).map
      (fun i => { hex := "#c" ++ toString i, name := "n", usage := "u" }),
    contrastRatio := none }

/-- Claim C4 (refuted as universally stated): a successful generatePalette
call made with a StyleProfile whose brand-color list is empty skips the merge
entirely, so an AI response carrying 8 colors is returned with all 8 entries,
exceeding the claimed maximum of 7. -/
theorem generatePalette_empty_profile_cex :
    ∃ r, AIService.generatePalette ⟨true⟩ "b" defaultPaletteConfig
        (some spNoColors) (.content 0 (.ok pal8)) = .ok r ∧
      r.success = true ∧
      r.data.map (fun p => p.colors.length) = some 8 := by
  refine ⟨_, rfl, rfl, ?_⟩
  decide

/-- Claim C4 (amended): for every successful generatePalette call made with a
StyleProfile whose brand-color list is non-empty, the returned color list is
the profile brand colors in order (labeled Brand Color N with usage Brand
primary) followed by the AI-returned colors whose hex does not exactly match
a brand color, truncated to at most 7 entries total; in particular, for
profile colors c1, c2 and an AI response containing c2, c3, c4 the result is
c1, c2, c3, c4 in that order (see the witness). A profile with an empty
brand-color list leaves the AI palette unchanged. -/
theorem generatePalette_brand_merge (svc : AIService) (brief : String)
    (config : GenerationConfig) (sp : StyleProfile) (tokens : Nat)
    (parsed : ColorPalette) (hconf : svc.configured = true)
    (hcolors : ¬sp.colors = []) :
    ∃ r, svc.generatePalette brief config (some sp)
        (.content tokens (.ok parsed)) = .ok r ∧ r.success = true ∧
      r.data = some { parsed with
        colors := (brandEntries sp ++
          parsed.colors.filter (fun c => !(sp.colors.contains c.hex))).take 7 } ∧
      (∀ p, r.data = some p → p.colors.length ≤ 7) := by
  obtain ⟨b⟩ := svc
  cases hconf
  have hm : mergeBrandColors sp parsed = { parsed with
      colors := (brandEntries sp ++
        parsed.colors.filter (fun c => !(sp.colors.contains c.hex))).take 7 } := by
    unfold mergeBrandColors
    rw [if_pos (List.length_pos.mpr hcolors)]
  refine ⟨_, rfl, rfl, ?_, ?_⟩
  · show some (mergeBrandColors sp parsed) = _
    rw [hm]
  · intro p hp
    have hp2 : mergeBrandColors sp parsed = p := by
      exact Option.some_injective _ hp
    rw [← hp2, hm]
    exact le_trans (List.length_take_le _ _) (le_refl 7)

/-- Brand profile with two colors, for the palette-merge witness. -/
def spBrand : StyleProfile :=
  { id := "s1", name := "Brand", colors := ["#111111", "#222222"], fonts := [],
    tone := "bold", brandGuidelines := "g" }

/-- An AI palette response containing the second brand color plus two fresh
colors, for the palette-merge witness. -/
def palAI : ColorPalette :=
  { colors := [{ hex := "#222222", name := "c2", usage := "u2" },
               { hex := "#333333", name := "c3", usage := "u3" },
               { hex := "#444444", name := "c4", usage := "u4" }],
    contrastRatio := none }

/-- Witness for C4 at the instance named in the claim: brand colors c1, c2
and AI colors c2, c3, c4 merge to c1, c2, c3, c4 in order. -/
theorem generatePalette_brand_merge_witness :
    ∃ r, AIService.generatePalette ⟨true⟩ "b" defaultPaletteConfig
        (some spBrand) (.content 0 (.ok palAI)) = .ok r ∧
      r.data.map (fun p => p.colors.map (fun c => c.hex)) =
        some ["#111111", "#222222", "#333333", "#444444"] := by
  obtain ⟨r, hr, hs, hd, hlen⟩ :=
    generatePalette_brand_merge ⟨true⟩ "b" defaultPaletteConfig spBrand 0
      palAI rfl (by decide)
  refine ⟨r, hr, ?_⟩
  rw [hd]
  decide


/-- Concrete copy payload used by the orchestrator examples. -/
def cCopy : CopyAsset :=
  { headline := "Big Headline", subline := "Sub", tone := "bold", cta := none }

/-- Network round in which the copy call succeeds and the palette call
suffers a transport fault. -/
def cexEnv : NetEnv :=
  { copyNet := .content 10 (.ok cCopy), paletteNet := .fault "rate limited",
    layoutNet := .noContent, imageNet := .noUrl }

/-- Session state with a non-empty API key and no assets yet. -/
def cexState : DesignGenerationState :=
  { isLoading := false, error := none, currentDesign := none, assets := [],
    apiKey := "sk-test" }

/-- Claim C1 (refuted): a createDesign fan-out over the kinds copy and
palette, with a non-empty API key, in which the palette call rejects while
the copy call succeeds, reports failure but leaves the copy asset in state —
the asset list is not empty, contrary to the claim that no asset produced by
a succeeding sibling call is retained. -/
theorem createDesign_sibling_assets_cex :
    (createDesign cexState cexEnv ["id1", "id2"] "d1" "make a page"
        [.copy, .palette] none).error = some "rate limited" ∧
    ¬(createDesign cexState cexEnv ["id1", "id2"] "d1" "make a page"
        [.copy, .palette] none).assets = [] := by
  constructor
  · rfl
  · decide

/-- Claim C1 (amended): with a non-empty API key, when at least one per-kind
Adapter call of the fan-out fails, createDesign reports failure — the session
error becomes the first failure message — but the assets produced by sibling
calls that succeeded are retained in state rather than discarded: given
enough fresh identifiers, every kind whose call succeeded contributes an
asset carrying its content and the brief as prompt. -/
theorem createDesign_failure_retains_siblings (st : DesignGenerationState)
    (env : NetEnv) (ids : List String) (designId brief : String)
    (assetTypes : List AssetType) (styleProfile : Option StyleProfile)
    (hkey : ¬st.apiKey = "")
    (hids : assetTypes.length ≤ ids.length)
    (hfail : ∃ t ∈ assetTypes, ∃ e,
      hookGenerateAsset (AIService.ofKey st.apiKey) env t brief styleProfile =
        .error e) :
    (createDesign st env ids designId brief assetTypes
        styleProfile).error.isSome = true ∧
    ∀ t c, t ∈ assetTypes →
      hookGenerateAsset (AIService.ofKey st.apiKey) env t brief styleProfile =
        .ok c →
      ∃ a ∈ (createDesign st env ids designId brief assetTypes
          styleProfile).assets,
        a.type = t ∧ a.content = c ∧ a.metadata.prompt = brief := by
  have hbeq : (st.apiKey == "") = false := by
    simp [hkey]
  simp only [createDesign, hbeq, Bool.false_eq_true, if_false]
  constructor
  · obtain ⟨t, hmem, e, he⟩ := hfail
    have h1 : (t, hookGenerateAsset (AIService.ofKey st.apiKey) env t brief
        styleProfile) ∈ assetTypes.map (fun t => (t,
          hookGenerateAsset (AIService.ofKey st.apiKey) env t brief
            styleProfile)) :=
      List.mem_map_of_mem _ hmem
    rw [he] at h1
    have h2 : e ∈ (assetTypes.map (fun t => (t,
        hookGenerateAsset (AIService.ofKey st.apiKey) env t brief
          styleProfile))).filterMap
        (fun p => match p.2 with | .error e => some e | .ok _ => none) := by
      exact List.mem_filterMap.mpr ⟨_, h1, rfl⟩
    rcases hhead : (assetTypes.map (fun t => (t,
        hookGenerateAsset (AIService.ofKey st.apiKey) env t brief
          styleProfile))).filterMap
        (fun p => match p.2 with | .error e => some e | .ok _ => none) with
      _ | ⟨x, xs⟩
    · rw [hhead] at h2
      simp at h2
    · simp [hhead]
  · intro t c hmem hok
    have h1 : (t, hookGenerateAsset (AIService.ofKey st.apiKey) env t brief
        styleProfile) ∈ assetTypes.map (fun t => (t,
          hookGenerateAsset (AIService.ofKey st.apiKey) env t brief
            styleProfile)) :=
      List.mem_map_of_mem _ hmem
    rw [hok] at h1
    have h2 : (t, c) ∈ (assetTypes.map (fun t => (t,
        hookGenerateAsset (AIService.ofKey st.apiKey) env t brief
          styleProfile))).filterMap
        (fun p => match p.2 with | .ok c => some (p.1, c) | .error _ => none) :=
      List.mem_filterMap.mpr ⟨_, h1, rfl⟩
    have hlen : ((assetTypes.map (fun t => (t,
        hookGenerateAsset (AIService.ofKey st.apiKey) env t brief
          styleProfile))).filterMap
        (fun p => match p.2 with
          | .ok c => some (p.1, c) | .error _ => none)).length ≤ ids.length := by
      refine le_trans (List.length_filterMap_le _ _) ?_
      rw [List.length_map]
      exact hids
    obtain ⟨b, hb⟩ := mem_zip_left ids h2 hlen
    refine ⟨mkAsset b t c brief designId, ?_, rfl, rfl, rfl⟩
    have := List.mem_map_of_mem
      (fun q => mkAsset q.2 q.1.1 q.1.2 brief designId) hb
    simpa using this

/-- Witness for C1 at the concrete two-kind round: the error is reported and
the succeeded copy kind retains an asset with its content and prompt. -/
theorem createDesign_failure_retains_siblings_witness :
    (createDesign cexState cexEnv ["id1", "id2"] "d1" "make a page"
        [.copy, .palette] none).error.isSome = true ∧
    ∃ a ∈ (createDesign cexState cexEnv ["id1", "id2"] "d1" "make a page"
        [.copy, .palette] none).assets,
      a.type = .copy ∧ a.content = .copy cCopy ∧
        a.metadata.prompt = "make a page" := by
  obtain ⟨herr, hmem⟩ := createDesign_failure_retains_siblings cexState cexEnv
    ["id1", "id2"] "d1" "make a page" [.copy, .palette] none
    (by decide) (by decide)
    ⟨.palette, by decide, "rate limited", rfl⟩
  exact ⟨herr, hmem .copy (.copy cCopy) (by decide) rfl⟩


/-- Claim C7 (confirmed): in an active session (non-empty API key and a
current design — without them the code returns without looking anything up),
regenerateAsset on the identifier of an existing asset A with a supplied
non-empty prompt behaves as claimed: on Adapter success the resulting asset
list no longer contains the identifier of A and equals the old list without A
plus exactly one appended new asset of the kind of A whose metadata records
the supplied prompt; on Adapter failure the asset list is untouched and the
error is surfaced; and when no asset has the identifier the operation fails
with the Asset not found error. -/
theorem regenerateAsset_swap (st : DesignGenerationState) (env : NetEnv)
    (freshId assetId p : String) (design : DesignBrief)
    (hkey : ¬st.apiKey = "") (hdes : st.currentDesign = some design)
    (hp : ¬p = "") (hfresh : ¬freshId = assetId) :
    (∀ A, st.assets.find? (fun a => a.id == assetId) = some A →
      (∀ c, hookGenerateAsset (AIService.ofKey st.apiKey) env A.type p none =
          .ok c →
        (regenerateAsset st env freshId assetId (some p)).assets =
          st.assets.filter (fun a => !(a.id == assetId)) ++
            [mkAsset freshId A.type c p design.id] ∧
        (∀ a ∈ (regenerateAsset st env freshId assetId (some p)).assets,
          ¬a.id = assetId) ∧
        (mkAsset freshId A.type c p design.id).metadata.prompt = p ∧
        (regenerateAsset st env freshId assetId (some p)).error = none) ∧
      (∀ e, hookGenerateAsset (AIService.ofKey st.apiKey) env A.type p none =
          .error e →
        (regenerateAsset st env freshId assetId (some p)).assets = st.assets ∧
        (regenerateAsset st env freshId assetId (some p)).error = some e)) ∧
    (st.assets.find? (fun a => a.id == assetId) = none →
      (regenerateAsset st env freshId assetId (some p)).error =
        some "Asset not found" ∧
      (regenerateAsset st env freshId assetId (some p)).assets = st.assets) := by
  have hbeq : (st.apiKey == "") = false := by
    simp [hkey]
  have hpbeq : (p == "") = false := by
    simp [hp]
  constructor
  · intro A hfind
    constructor
    · intro c hok
      have hred : regenerateAsset st env freshId assetId (some p) =
          { st with
            isLoading := false
            error := none
            assets := (st.assets ++
                [mkAsset freshId A.type c p design.id]).filter
              (fun a => !(a.id == assetId)) } := by
        simp only [regenerateAsset, hbeq, Bool.false_eq_true, if_false, hdes,
          hfind, jsOrStr, hpbeq, hok]
      refine ⟨?_, ?_, rfl, ?_⟩
      · rw [hred]
        show (st.assets ++ [mkAsset freshId A.type c p design.id]).filter
            (fun a => !(a.id == assetId)) = _
        rw [List.filter_append]
        simp [mkAsset, hfresh]
      · intro a hmem
        rw [hred] at hmem
        have h1 := List.mem_filter.mp hmem
        simpa using h1.2
      · rw [hred]
    · intro e herr
      have hred : regenerateAsset st env freshId assetId (some p) =
          { st with isLoading := false, error := some e } := by
        simp only [regenerateAsset, hbeq, Bool.false_eq_true, if_false, hdes,
          hfind, jsOrStr, hpbeq, herr]
      rw [hred]
      exact ⟨rfl, rfl⟩
  · intro hfind
    have hred : regenerateAsset st env freshId assetId (some p) =
        { st with isLoading := false, error := some "Asset not found" } := by
      simp only [regenerateAsset, hbeq, Bool.false_eq_true, if_false, hdes,
        hfind]
    rw [hred]
    exact ⟨rfl, rfl⟩

/-- Current design of the regeneration witness session. -/
def regenDesign : DesignBrief :=
  { id := "d1", brief := "b", assets := [.copy], styleProfileId := none }

/-- Session state holding one copy asset, for the regeneration witness. -/
def regenState : DesignGenerationState :=
  { isLoading := false, error := none, currentDesign := some regenDesign,
    assets := [mkAsset "old1" .copy (.copy cCopy) "orig prompt" "d1"],
    apiKey := "sk-test" }

/-- Witness for C7: regenerating the existing copy asset old1 with the prompt
new prompt, under a succeeding Adapter round, swaps the asset as claimed. -/
theorem regenerateAsset_swap_witness :
    (regenerateAsset regenState cexEnv "new1" "old1"
        (some "new prompt")).assets =
      [mkAsset "new1" .copy (.copy cCopy) "new prompt" "d1"] ∧
    (regenerateAsset regenState cexEnv "new1" "old1"
      (some "new prompt")).error = none := by
  obtain ⟨hsome, _⟩ := regenerateAsset_swap regenState cexEnv "new1" "old1"
    "new prompt" regenDesign (by decide) rfl (by decide) (by decide)
  obtain ⟨hok, _, _, herr⟩ := (hsome
      (mkAsset "old1" .copy (.copy cCopy) "orig prompt" "d1") rfl).1
    (.copy cCopy) rfl
  constructor
  · rw [hok]
    decide
  · exact herr

/-- Claim C10 (confirmed): every asset added to session state by createDesign
or by regenerateAsset is stored through the hook addAsset, whose metadata
hard-codes the model as the empty string and the temperature as 0 regardless
of the model and temperature the underlying Adapter call used; only the
prompt is recorded faithfully (the brief for createDesign, the effective
prompt for regenerateAsset). -/
theorem asset_metadata_blank_model_zero_temperature
    (st : DesignGenerationState) (env : NetEnv) (ids : List String)
    (designId brief : String) (assetTypes : List AssetType)
    (styleProfile : Option StyleProfile) (freshId assetId : String)
    (newPrompt : Option String) :
    (¬st.apiKey = "" →
      ∀ a ∈ (createDesign st env ids designId brief assetTypes
          styleProfile).assets,
        a.metadata.model = "" ∧ a.metadata.temperature = 0 ∧
          a.metadata.prompt = brief) ∧
    (∀ a ∈ (regenerateAsset st env freshId assetId newPrompt).assets,
      ¬a ∈ st.assets →
        a.metadata.model = "" ∧ a.metadata.temperature = 0) := by
  constructor
  · intro hkey a hmem
    have hbeq : (st.apiKey == "") = false := by
      simp [hkey]
    simp only [createDesign, hbeq, Bool.false_eq_true, if_false] at hmem
    obtain ⟨q, hq, rfl⟩ := List.mem_map.mp hmem
    exact ⟨rfl, rfl, rfl⟩
  · intro a hmem hnot
    unfold regenerateAsset at hmem
    split at hmem
    · exact absurd hmem hnot
    · split at hmem
      · exact absurd hmem hnot
      · split at hmem
        · exact absurd hmem hnot
        · dsimp only at hmem
          split at hmem
          · exact absurd hmem hnot
          · have h1 := List.mem_of_mem_filter hmem
            rcases List.mem_append.mp h1 with h2 | h2
            · exact absurd h2 hnot
            · rcases List.mem_singleton.mp h2 with rfl
              exact ⟨rfl, rfl⟩

/-- Witness for C10 at the concrete two-kind round of the orchestrator
examples: the stored copy asset has blank model, zero temperature and the
brief as prompt. -/
theorem asset_metadata_blank_model_zero_temperature_witness :
    (mkAsset "id1" .copy (.copy cCopy) "make a page" "d1").metadata.model =
      "" ∧
    (mkAsset "id1" .copy (.copy cCopy) "make a page"
      "d1").metadata.temperature = 0 ∧
    (mkAsset "id1" .copy (.copy cCopy) "make a page" "d1").metadata.prompt =
      "make a page" := by
  have h := (asset_metadata_blank_model_zero_temperature cexState cexEnv
    ["id1", "id2"] "d1" "make a page" [.copy, .palette] none "f" "x"
    none).1 (by decide)
  exact h _ (by decide)

end GenDesign
